import Mathlib

/-!
Shallow embedding of the Genuka Django boilerplate authentication core
(`genuka_app/services/oauth.py`, `session.py`, `genuka_api.py`, `company.py`
and `genuka_app/views.py`), with theorems settling the specification claims.

Conventions:
- Python `str` values are Lean `String`s; values that may be `None` are `Option`s.
- Machine time (`time.time()`, `timezone.now()`) is passed explicitly as an `Int`.
- The keyed HMAC-SHA256 hex digest (`hmac.new(secret, msg, sha256).hexdigest()`)
  is an abstract parameter `hmacHex : String → String`: its argument is the
  canonical query string whose construction the source performs.
- PyJWT's `jwt.decode(token, secret, ["HS256"])` (signature + expiry check) is
  an abstract parameter `decode : String → Option JwtPayload`: `some p` means
  the token is validly signed and unexpired with payload `p`.
-/

namespace Genuka

/-- Model of Python `int(s)` on decimal strings: optional sign followed by a
nonempty run of ASCII digits yields the integer; anything else raises
`ValueError`, modelled as `none`. -/
def pyInt (s : String) : Option Int :=
  let digitsVal : List Char → Int :=
    fun l => (l.foldl (fun acc c => 10 * acc + (c.toNat - 48)) (0 : Nat) : Nat)
  match s.data with
  | [] => none
  | '-' :: rest =>
      if rest ≠ [] ∧ rest.all Char.isDigit then some (-(digitsVal rest)) else none
  | '+' :: rest =>
      if rest ≠ [] ∧ rest.all Char.isDigit then some (digitsVal rest) else none
  | chars =>
      if chars.all Char.isDigit then some (digitsVal chars) else none

/-- `OAuthService.validate_timestamp` (oauth.py lines 71–87): parse the
timestamp with `int`, let `age = now - timestamp`, and return
`age <= tolerance`; any parse failure returns `False`. -/
def validate_timestamp (tolerance now : Int) (timestamp : String) : Bool :=
  match pyInt timestamp with
  | none => false
  | some t => decide (now - t ≤ tolerance)

/-- The characters `urllib.parse.quote` never escapes when called with
`safe=''` (as `urlencode(..., quote_via=quote)` does): ASCII letters, digits,
and `_ . - ~`. -/
def isAlwaysSafe (c : Char) : Bool :=
  c.isAlpha || c.isDigit || c == '_' || c == '.' || c == '-' || c == '~'

/-- Uppercase hexadecimal digit for a value `< 16`. -/
def hexUpper (n : Nat) : Char :=
  if n < 10 then Char.ofNat (48 + n) else Char.ofNat (55 + n)

/-- Percent-encoding of one UTF-8 byte as `urllib.parse.quote` does it. -/
def quoteByte (b : UInt8) : List Char :=
  if isAlwaysSafe (Char.ofNat b.toNat) then [Char.ofNat b.toNat]
  else ['%', hexUpper (b.toNat / 16), hexUpper (b.toNat % 16)]

/-- The UTF-8 bytes of a string (the list underlying `String.toUTF8`). -/
def strUTF8 (s : String) : List UInt8 :=
  s.data.flatMap String.utf8EncodeChar

/-- `urllib.parse.quote(s, safe='')`: percent-encode every UTF-8 byte of `s`
outside the always-safe set. -/
def pyQuote (s : String) : String :=
  String.mk ((strUTF8 s).foldr (fun b acc => quoteByte b ++ acc) [])

/-- Strict lexicographic comparison of char lists, as Python compares `str`
values code point by code point. -/
def charListLt : List Char → List Char → Bool
  | _, [] => false
  | [], _ :: _ => true
  | x :: xs, y :: ys => decide (x < y) || (x == y && charListLt xs ys)

/-- Python `str` strict order. -/
def strLt (a b : String) : Bool := charListLt a.data b.data

/-- Python `str` reflexive order. -/
def strLe (a b : String) : Bool := strLt a b || a == b

/-- Ordering on `(key, value)` pairs used by Python's
`sorted(params.items())`: tuples compare lexicographically. -/
def pairLe (a b : String × String) : Bool :=
  if a.1 == b.1 then strLe a.2 b.2 else strLt a.1 b.1

/-- `pairLe` as a decidable relation, for use with `List.insertionSort`. -/
def pairRel (a b : String × String) : Prop := pairLe a b = true

instance : DecidableRel pairRel := fun a b => instDecidableEqBool (pairLe a b) true

/-- `dict(sorted(params.items()))` of oauth.py line 42: the parameter list in
ascending lexicographic pair order. -/
def sortParams (l : List (String × String)) : List (String × String) :=
  List.insertionSort pairRel l

/-- `urlencode(sorted_params, quote_via=quote)` of oauth.py line 46: join
`quote(k)=quote(v)` with `&` over the sorted pairs. -/
def queryString (l : List (String × String)) : String :=
  String.intercalate "&" ((sortParams l).map fun kv => pyQuote kv.1 ++ "=" ++ pyQuote kv.2)

/-- `OAuthService.generate_hmac` (oauth.py lines 24–55): the keyed
HMAC-SHA256 hex digest of the canonical query string of the sorted
parameters. -/
def generate_hmac (hmacHex : String → String) (params : List (String × String)) : String :=
  hmacHex (queryString params)

/-- ASCII byte values of a string, as CPython's `hmac.compare_digest`
obtains them from `str` arguments before comparing. -/
def strBytes (s : String) : List Nat :=
  s.data.map Char.toNat

/-- The loop of CPython's `_tscmp` (the implementation of
`hmac.compare_digest`): walk both byte lists in lockstep, OR-accumulating the
XOR of each byte pair, and also count the iterations performed. The loop
never exits early on a mismatch. -/
def tscmp : List Nat → List Nat → Nat → Nat × Nat
  | x :: xs, y :: ys, acc =>
      let r := tscmp xs ys (Nat.lor acc (Nat.xor x y))
      (r.1, r.2 + 1)
  | _, _, acc => (acc, 0)

/-- `hmac.compare_digest(a, b)` on ASCII byte lists: when the lengths match,
scan all bytes accumulating XOR differences starting from 0; when they
differ, scan `b` against itself starting from 1 (so the result is `False`
after a full-length scan). True iff the accumulator ends at 0. -/
def compare_digest (a b : List Nat) : Bool :=
  (if a.length = b.length then tscmp a b 0 else tscmp b b 1).1 == 0

/-- Number of loop iterations `compare_digest` performs on `(a, b)`. -/
def compare_digest_steps (a b : List Nat) : Nat :=
  (if a.length = b.length then tscmp a b 0 else tscmp b b 1).2

/-- `OAuthService.verify_hmac` (oauth.py lines 57–69): recompute the expected
signature and compare with `hmac.compare_digest`. -/
def verify_hmac (hmacHex : String → String) (params : List (String × String))
    (received_hmac : String) : Bool :=
  compare_digest (strBytes (generate_hmac hmacHex params)) (strBytes received_hmac)

/-- `OAuthService.validate_callback_params` (oauth.py lines 150–158):
`all([code, company_id, timestamp, hmac_signature])` — each argument comes
from `request.GET.get(...)` so it is `None` or a string, and Python truthiness
means present and non-empty. -/
def truthyOpt : Option String → Bool
  | none => false
  | some s => s ≠ ""

def validate_callback_params (code company_id timestamp hmac_signature : Option String) : Bool :=
  truthyOpt code && truthyOpt company_id && truthyOpt timestamp && truthyOpt hmac_signature

/-! ### Session service (session.py) -/

/-- A decoded JWT payload: the claims the session service reads. Python's
`payload.get(...)` returns `None` for absent claims, hence the `Option`
fields. An empty payload dict (falsy in `if not payload`) corresponds to all
fields `none`, which the kind check rejects identically. -/
structure JwtPayload where
  companyId : Option String := none
  type : Option String := none
deriving Repr, DecidableEq

def SESSION_COOKIE_NAME : String := "session"

def REFRESH_COOKIE_NAME : String := "refresh_session"

/-- `SessionService.verify_jwt` (session.py lines 89–107), with PyJWT's
`jwt.decode(token, secret, ["HS256"])` abstracted as `decode`: `some payload`
iff the token's signature verifies under the shared secret and it is
unexpired; `none` on any `InvalidTokenError`/`ExpiredSignatureError`. -/
def verify_jwt (decode : String → Option JwtPayload) (token : String) : Option JwtPayload :=
  decode token

/-- `SessionService.verify_refresh_token` (session.py lines 109–130): read
the refresh cookie; reject a missing or empty cookie, a token that fails
verification, and a token whose `type` claim is not `'refresh'`; otherwise
return the `companyId` claim. -/
def verify_refresh_token (decode : String → Option JwtPayload)
    (cookies : String → Option String) : Option String :=
  match cookies REFRESH_COOKIE_NAME with
  | none => none
  | some token =>
      if token = "" then none
      else
        match verify_jwt decode token with
        | none => none
        | some payload =>
            if payload.type ≠ some "refresh" then none else payload.companyId

/-- `SessionService.get_current_company_id` (session.py lines 132–152): same
as `verify_refresh_token` but on the session cookie with kind `'session'`. -/
def get_current_company_id (decode : String → Option JwtPayload)
    (cookies : String → Option String) : Option String :=
  match cookies SESSION_COOKIE_NAME with
  | none => none
  | some token =>
      if token = "" then none
      else
        match verify_jwt decode token with
        | none => none
        | some payload =>
            if payload.type ≠ some "session" then none else payload.companyId

/-! ### Company model and store (models.py, services/company.py) -/

/-- The `Company` Django model: nullable columns are `Option`s, timestamps
are abstract `Int` instants. -/
structure Company where
  id : String
  handle : Option String := none
  name : String := ""
  description : Option String := none
  logo_url : Option String := none
  authorization_code : Option String := none
  access_token : Option String := none
  refresh_token : Option String := none
  token_expires_at : Option Int := none
  phone : Option String := none
deriving Repr, DecidableEq

/-- The companies table, keyed by the primary key `id`. -/
abbrev Store := List Company

/-- `Company.objects.get(pk=company_id)`, returning `none` on
`DoesNotExist`. -/
def find_by_id (store : Store) (company_id : String) : Option Company :=
  store.find? (fun c => c.id == company_id)

/-- `CompanyService.upsert_company` (company.py lines 65–82):
`update_or_create(id=..., defaults=data)` — replace the record when the id
exists, else insert it; every field of the record is in `defaults`. -/
def upsert_company (store : Store) (c : Company) : Store :=
  if (find_by_id store c.id).isSome then
    store.map (fun x => if x.id == c.id then c else x)
  else store ++ [c]

/-- The fields `WebhookView._handle_company_updated` may put in
`update_data`. -/
structure UpdateData where
  name : Option String := none
  description : Option String := none
deriving Repr, DecidableEq

/-- `CompanyService.update_by_id` (company.py lines 84–102): fetch the
company, `setattr` each provided field, save; `none` fields are absent keys.
Returns the store unchanged on `DoesNotExist`. -/
def update_by_id (store : Store) (company_id : String) (upd : UpdateData) : Store :=
  match find_by_id store company_id with
  | none => store
  | some company =>
      let company2 := { company with
        name := upd.name.getD company.name,
        description := match upd.description with
          | some d => some d
          | none => company.description }
      store.map (fun c => if c.id == company_id then company2 else c)

/-- `CompanyService.delete_by_id` (company.py lines 104–119). -/
def delete_by_id (store : Store) (company_id : String) : Store :=
  match find_by_id store company_id with
  | none => store
  | some _ => store.filter (fun c => c.id ≠ company_id)

/-! ### Genuka API service (services/genuka_api.py) -/

/-- An HTTP response from the provider: `ok` is `response.ok`, `body` the
parsed JSON body (typed by the fields the service reads). -/
structure ProviderResp (α : Type) where
  ok : Bool
  body : α
deriving Repr, DecidableEq

/-- The JSON fields the token endpoints' responses carry; `none` is an
absent or `null` field (Python `data.get(...)` returns `None` for both). -/
structure TokenJson where
  access_token : Option String := none
  refresh_token : Option String := none
  expires_in_minutes : Option Int := none
deriving Repr, DecidableEq

/-- The dict `exchange_code_for_token`/`refresh_access_token` build from the
provider response. -/
structure TokenData where
  access_token : Option String
  refresh_token : Option String
  expires_in_minutes : Int
deriving Repr, DecidableEq

/-- `GenukaApiService.exchange_code_for_token` (genuka_api.py lines 19–56):
raises (`.error`) on any non-ok response; `expires_in_minutes` defaults
to 60. -/
def exchange_code_for_token (resp : ProviderResp TokenJson) : Except String TokenData :=
  if resp.ok then
    .ok { access_token := resp.body.access_token,
          refresh_token := resp.body.refresh_token,
          expires_in_minutes := resp.body.expires_in_minutes.getD 60 }
  else .error "Token exchange failed"

/-- `GenukaApiService.refresh_access_token` (genuka_api.py lines 58–93):
same contract as the exchange. -/
def refresh_access_token (resp : ProviderResp TokenJson) : Except String TokenData :=
  if resp.ok then
    .ok { access_token := resp.body.access_token,
          refresh_token := resp.body.refresh_token,
          expires_in_minutes := resp.body.expires_in_minutes.getD 60 }
  else .error "Token refresh failed"

/-- The JSON fields of the provider's company-info response that
`handle_callback` reads (`metadata_contact` is `metadata.contact`). -/
structure CompanyInfo where
  handle : Option String := none
  name : Option String := none
  description : Option String := none
  logoUrl : Option String := none
  metadata_contact : Option String := none
deriving Repr, DecidableEq

/-- `GenukaApiService.get_company_info` (genuka_api.py lines 95–114): on a
non-ok response it does not raise but returns the minimal record
`{'name': f'Company {company_id}'}`; on ok it returns the response body. -/
def get_company_info (resp : ProviderResp CompanyInfo) (company_id : String) : CompanyInfo :=
  if resp.ok then resp.body
  else { name := some ("Company " ++ company_id) }

/-! ### OAuth callback orchestration (oauth.py handle_callback, views.py CallbackView) -/

/-- An outbound network call to the provider, recorded in order. -/
inductive NetCall
  | exchange (code : String)
  | companyInfo (company_id : String)
  | refresh (refresh_token : String)
deriving Repr, DecidableEq

/-- A raised Python exception, split by the classes the views catch. -/
inductive PyError
  | valueError (msg : String)
  | exception (msg : String)
deriving Repr, DecidableEq

/-- The environment of one callback request: configuration, clock, and the
provider's responses should the corresponding calls be made. -/
structure CallbackEnv where
  hmacHex : String → String
  now : Int
  tolerance : Int
  exchangeResp : ProviderResp TokenJson
  infoResp : ProviderResp CompanyInfo

/-- `timezone.now() + timedelta(minutes=m)` as an abstract instant measured
in seconds. -/
def expiryAt (now minutes : Int) : Int := now + 60 * minutes

/-- `OAuthService.handle_callback` (oauth.py lines 89–148): verify the HMAC,
validate the timestamp, exchange the code, fetch company info, upsert the
company. Returns the raised error or the updated store, together with the
provider calls made, in order. -/
def handle_callback (env : CallbackEnv) (store : Store)
    (code company_id timestamp hmac_signature redirect_to : String) :
    Except PyError Store × List NetCall :=
  let params := [("code", code), ("company_id", company_id),
                 ("redirect_to", redirect_to), ("timestamp", timestamp)]
  if verify_hmac env.hmacHex params hmac_signature = false then
    (.error (.valueError "Invalid HMAC signature"), [])
  else if validate_timestamp env.tolerance env.now timestamp = false then
    (.error (.valueError "Request expired"), [])
  else
    match exchange_code_for_token env.exchangeResp with
    | .error msg => (.error (.exception msg), [NetCall.exchange code])
    | .ok token_data =>
        let company_info := get_company_info env.infoResp company_id
        let token_expires_at := expiryAt env.now token_data.expires_in_minutes
        let company_data : Company :=
          { id := company_id,
            handle := company_info.handle,
            name := company_info.name.getD "",
            description := company_info.description,
            logo_url := company_info.logoUrl,
            authorization_code := some code,
            access_token := token_data.access_token,
            refresh_token := token_data.refresh_token,
            token_expires_at := some token_expires_at,
            phone := company_info.metadata_contact }
        (.ok (upsert_company store company_data),
         [NetCall.exchange code, NetCall.companyInfo company_id])

/-- Percent-decoding of `urllib.parse.unquote` restricted to `%XX` escapes of
ASCII (sufficient for the redirect targets modelled here). -/
def hexVal (c : Char) : Option Nat :=
  if c.isDigit then some (c.toNat - 48)
  else if 'A' ≤ c ∧ c ≤ 'F' then some (c.toNat - 55)
  else if 'a' ≤ c ∧ c ≤ 'f' then some (c.toNat - 87)
  else none

def pyUnquoteAux : List Char → List Char
  | '%' :: h1 :: h2 :: rest =>
      match hexVal h1, hexVal h2 with
      | some v1, some v2 => Char.ofNat (16 * v1 + v2) :: pyUnquoteAux rest
      | _, _ => '%' :: pyUnquoteAux (h1 :: h2 :: rest)
  | c :: rest => c :: pyUnquoteAux rest
  | [] => []

def pyUnquote (s : String) : String :=
  String.mk (pyUnquoteAux s.data)

/-- The observable response of `CallbackView.get`. -/
inductive CbResp
  | redirect (url : String)
  | jsonError (status : Nat) (error : String)
deriving Repr, DecidableEq

structure CallbackResult where
  resp : CbResp
  store : Store
  calls : List NetCall
  cookies : List String
deriving Repr, DecidableEq

/-- `CallbackView.get` (views.py lines 25–82): extract the query parameters
(`none` = absent), check presence, run `handle_callback`; a `ValueError`
becomes a 400 with the error text, any other exception a 500; on success the
redirect target is decoded once and `SessionService.create_session` sets the
two cookies. `.getD ""` only discharges the `Option` after
`validate_callback_params` has already guaranteed the values are present. -/
def callback_view_get (env : CallbackEnv) (defaultRedirect : String) (store : Store)
    (code company_id timestamp hmac_signature redirect_opt : Option String) :
    CallbackResult :=
  let redirect_to := redirect_opt.getD defaultRedirect
  if validate_callback_params code company_id timestamp hmac_signature = false then
    { resp := .jsonError 400 "Missing required parameters",
      store := store, calls := [], cookies := [] }
  else
    match handle_callback env store (code.getD "") (company_id.getD "")
        (timestamp.getD "") (hmac_signature.getD "") redirect_to with
    | (.error (.valueError msg), calls) =>
        { resp := .jsonError 400 msg, store := store, calls := calls, cookies := [] }
    | (.error (.exception _), calls) =>
        { resp := .jsonError 500 "Internal server error",
          store := store, calls := calls, cookies := [] }
    | (.ok store2, calls) =>
        { resp := .redirect (pyUnquote redirect_to), store := store2, calls := calls,
          cookies := [SESSION_COOKIE_NAME, REFRESH_COOKIE_NAME] }

/-! ### Refresh endpoint (views.py RefreshView.post) -/

structure RefreshEnv where
  decode : String → Option JwtPayload
  refreshResp : ProviderResp TokenJson
  now : Int

structure RefreshResult where
  status : Nat
  success : Bool
  code : Option String
  store : Store
  calls : List NetCall
  cookies : List String
deriving Repr, DecidableEq

/-- `RefreshView.post` (views.py lines 293–355): verify the refresh cookie
(`REFRESH_TOKEN_INVALID` on failure), look up the company
(`COMPANY_NOT_FOUND`), reject a falsy stored refresh token
(`NO_REFRESH_TOKEN`), call the provider's refresh (`REFRESH_FAILED` on any
exception), then persist the new tokens — keeping the old refresh token when
the response's is falsy — and reissue both session cookies. -/
def refresh_view_post (env : RefreshEnv) (cookies : String → Option String)
    (store : Store) : RefreshResult :=
  match verify_refresh_token env.decode cookies with
  | none =>
      { status := 401, success := false, code := some "REFRESH_TOKEN_INVALID",
        store := store, calls := [], cookies := [] }
  | some company_id =>
      match find_by_id store company_id with
      | none =>
          { status := 404, success := false, code := some "COMPANY_NOT_FOUND",
            store := store, calls := [], cookies := [] }
      | some company =>
          if truthyOpt company.refresh_token = false then
            { status := 401, success := false, code := some "NO_REFRESH_TOKEN",
              store := store, calls := [], cookies := [] }
          else
            let rt := company.refresh_token.getD ""
            match refresh_access_token env.refreshResp with
            | .error _ =>
                { status := 401, success := false, code := some "REFRESH_FAILED",
                  store := store, calls := [NetCall.refresh rt], cookies := [] }
            | .ok token_data =>
                let company2 := { company with
                  access_token := token_data.access_token,
                  refresh_token :=
                    match token_data.refresh_token with
                    | some r => if r = "" then company.refresh_token else some r
                    | none => company.refresh_token,
                  token_expires_at := some (expiryAt env.now token_data.expires_in_minutes) }
                { status := 200, success := true, code := none,
                  store := store.map (fun c => if c.id == company_id then company2 else c),
                  calls := [NetCall.refresh rt],
                  cookies := [SESSION_COOKIE_NAME, REFRESH_COOKIE_NAME] }

/-! ### Webhook endpoint (views.py WebhookView) -/

/-- The values of the static `WEBHOOK_EVENTS` mapping (views.py lines
86–98) — the keys of the handler dict in `_process_event`. -/
def WEBHOOK_EVENT_TYPES : List String :=
  ["company.updated", "company.deleted", "order.created", "order.updated",
   "product.created", "product.updated", "subscription.created",
   "subscription.updated", "subscription.cancelled", "payment.succeeded",
   "payment.failed"]

/-- A parsed webhook JSON body; `data` is modelled as a string-valued JSON
object, which covers every field the implemented handlers read. -/
structure WebhookBody where
  type : Option String := none
  data : List (String × String) := []
  company_id : Option String := none
deriving Repr, DecidableEq

/-- `data.get(k)` / `k in data` on the event payload. -/
def dataLookup (data : List (String × String)) (k : String) : Option String :=
  (data.find? (fun p => p.1 == k)).map (fun p => p.2)

/-- `WebhookView._handle_company_updated` (views.py lines 165–176): collect
`name`/`description` if present and call `update_by_id` only when at least
one is; a `None` `company_id` makes the lookup raise `DoesNotExist`, which
`update_by_id` swallows. -/
def handle_company_updated (store : Store) (data : List (String × String))
    (company_id : Option String) : Store :=
  let upd : UpdateData :=
    { name := dataLookup data "name", description := dataLookup data "description" }
  if upd.name.isSome || upd.description.isSome then
    match company_id with
    | none => store
    | some cid => update_by_id store cid upd
  else store

/-- `WebhookView._handle_company_deleted` (views.py lines 178–181). -/
def handle_company_deleted (store : Store) (company_id : Option String) : Store :=
  match company_id with
  | none => store
  | some cid => delete_by_id store cid

/-- `WebhookView._process_event` (views.py lines 141–162): look the event
type up in the static handler mapping; the order/product/subscription/payment
handlers only log (`TODO` bodies), and an unmapped type is logged and
ignored. -/
def process_event (store : Store) (event_type : Option String)
    (data : List (String × String)) (company_id : Option String) : Store :=
  match event_type with
  | some et =>
      if et = "company.updated" then handle_company_updated store data company_id
      else if et = "company.deleted" then handle_company_deleted store company_id
      else store
  | none => store

structure WebhookResult where
  status : Nat
  success : Bool
  store : Store
deriving Repr, DecidableEq

/-- `WebhookView.post` (views.py lines 109–139) on a parseable JSON body:
dispatch the event and answer `{"success": true}` (the `JSONDecodeError`
branch is outside this model's domain, and no modelled handler raises). -/
def webhook_post (store : Store) (body : WebhookBody) : WebhookResult :=
  { status := 200, success := true,
    store := process_event store body.type body.data body.company_id }

/-! ### Order lemmas for the canonical parameter sort -/

theorem charListLt_irrefl : ∀ a : List Char, charListLt a a = false
  | [] => rfl
  | x :: xs => by simp [charListLt, charListLt_irrefl xs]

theorem charListLt_trans : ∀ a b c : List Char,
    charListLt a b = true → charListLt b c = true → charListLt a c = true
  | _, _, [], _, h2 => by simp [charListLt] at h2
  | _, [], _ :: _, h1, _ => by simp [charListLt] at h1
  | [], _ :: _, _ :: _, _, _ => rfl
  | x :: xs, y :: ys, z :: zs, h1, h2 => by
      simp only [charListLt, Bool.or_eq_true, Bool.and_eq_true, decide_eq_true_eq,
        beq_iff_eq] at h1 h2 ⊢
      rcases h1 with h1 | ⟨rfl, h1'⟩
      · rcases h2 with h2 | ⟨rfl, _⟩
        · exact Or.inl (lt_trans h1 h2)
        · exact Or.inl h1
      · rcases h2 with h2 | ⟨rfl, h2'⟩
        · exact Or.inl h2
        · exact Or.inr ⟨rfl, charListLt_trans xs ys zs h1' h2'⟩

theorem charListLt_asymm {a b : List Char} (h : charListLt a b = true) :
    charListLt b a = false := by
  by_contra hc
  have hba : charListLt b a = true := by
    cases hx : charListLt b a
    · exact absurd hx hc
    · rfl
  have := charListLt_trans a b a h hba
  simp [charListLt_irrefl] at this

theorem charListLt_trichotomy : ∀ a b : List Char,
    charListLt a b = true ∨ charListLt b a = true ∨ a = b
  | [], [] => Or.inr (Or.inr rfl)
  | [], _ :: _ => Or.inl rfl
  | _ :: _, [] => Or.inr (Or.inl rfl)
  | x :: xs, y :: ys => by
      rcases lt_trichotomy x y with h | rfl | h
      · exact Or.inl (by simp [charListLt, h])
      · rcases charListLt_trichotomy xs ys with h' | h' | rfl
        · exact Or.inl (by simp [charListLt, h'])
        · exact Or.inr (Or.inl (by simp [charListLt, h']))
        · exact Or.inr (Or.inr rfl)
      · exact Or.inr (Or.inl (by simp [charListLt, h]))

theorem strData_eq {a b : String} (h : a.data = b.data) : a = b := by
  cases a
  cases b
  exact congrArg String.mk h

theorem strLe_total (a b : String) : strLe a b = true ∨ strLe b a = true := by
  rcases charListLt_trichotomy a.data b.data with h | h | h
  · exact Or.inl (by simp [strLe, strLt, h])
  · exact Or.inr (by simp [strLe, strLt, h])
  · exact Or.inl (by simp [strLe, strData_eq h])

theorem strLe_trans {a b c : String} (h1 : strLe a b = true) (h2 : strLe b c = true) :
    strLe a c = true := by
  simp only [strLe, Bool.or_eq_true, beq_iff_eq] at h1 h2 ⊢
  rcases h1 with h1 | rfl
  · rcases h2 with h2 | rfl
    · exact Or.inl (charListLt_trans _ _ _ h1 h2)
    · exact Or.inl h1
  · exact h2

theorem strLe_antisymm {a b : String} (h1 : strLe a b = true) (h2 : strLe b a = true) :
    a = b := by
  simp only [strLe, strLt, Bool.or_eq_true, beq_iff_eq] at h1 h2
  rcases h1 with h1 | rfl
  · rcases h2 with h2 | rfl
    · exact absurd h2 (by simp [charListLt_asymm h1])
    · rfl
  · rfl

theorem pairRel_iff (a b : String × String) :
    pairRel a b ↔ if a.1 = b.1 then strLe a.2 b.2 = true else strLt a.1 b.1 = true := by
  unfold pairRel pairLe
  by_cases h : a.1 = b.1 <;> simp [h]

theorem pairLe_total (a b : String × String) : pairRel a b ∨ pairRel b a := by
  rw [pairRel_iff, pairRel_iff]
  by_cases h : a.1 = b.1
  · rw [if_pos h, if_pos h.symm]
    exact strLe_total a.2 b.2
  · rw [if_neg h, if_neg (Ne.symm h)]
    rcases charListLt_trichotomy a.1.data b.1.data with h' | h' | h'
    · exact Or.inl h'
    · exact Or.inr h'
    · exact absurd (strData_eq h') h

theorem pairLe_trans {a b c : String × String} (h1 : pairRel a b) (h2 : pairRel b c) :
    pairRel a c := by
  rw [pairRel_iff] at h1 h2 ⊢
  by_cases hab : a.1 = b.1 <;> by_cases hbc : b.1 = c.1
  · rw [if_pos hab] at h1
    rw [if_pos hbc] at h2
    rw [if_pos (hab.trans hbc)]
    exact strLe_trans h1 h2
  · rw [if_pos hab] at h1
    rw [if_neg hbc] at h2
    rw [if_neg (fun he => hbc (hab.symm.trans he))]
    rw [hab]
    exact h2
  · rw [if_neg hab] at h1
    rw [if_pos hbc] at h2
    rw [if_neg (fun he => hab (he.trans hbc.symm))]
    rw [← hbc]
    exact h1
  · rw [if_neg hab] at h1
    rw [if_neg hbc] at h2
    have hlt : charListLt a.1.data c.1.data = true := charListLt_trans _ _ _ h1 h2
    have hac : a.1 ≠ c.1 := by
      intro he
      rw [← he] at h2
      exact absurd h2 (by simp [strLt, charListLt_asymm h1])
    rw [if_neg hac]
    exact hlt

theorem pairLe_antisymm {a b : String × String} (h1 : pairRel a b) (h2 : pairRel b a) :
    a = b := by
  rw [pairRel_iff] at h1 h2
  by_cases hab : a.1 = b.1
  · rw [if_pos hab] at h1
    rw [if_pos hab.symm] at h2
    exact Prod.ext hab (strLe_antisymm h1 h2)
  · rw [if_neg hab] at h1
    rw [if_neg (Ne.symm hab)] at h2
    exact absurd h2 (by simp [strLt, charListLt_asymm h1])

instance : IsTotal (String × String) pairRel := ⟨pairLe_total⟩
instance : IsTrans (String × String) pairRel := ⟨fun _ _ _ => pairLe_trans⟩
instance : IsAntisymm (String × String) pairRel := ⟨fun _ _ => pairLe_antisymm⟩

/-- Sorting is invariant under permutation of the input parameter list: the
canonical form depends only on the parameter (multi)set. -/
theorem sortParams_congr {p q : List (String × String)} (h : p.Perm q) :
    sortParams p = sortParams q :=
  List.eq_of_perm_of_sorted
    ((List.perm_insertionSort pairRel p).trans (h.trans (List.perm_insertionSort pairRel q).symm))
    (List.sorted_insertionSort pairRel p) (List.sorted_insertionSort pairRel q)

/-! ### Lemmas about the constant-time comparison -/

theorem lor_eq_zero_iff (x y : Nat) : Nat.lor x y = 0 ↔ x = 0 ∧ y = 0 := by
  have hx : Nat.lor x y = x ||| y := rfl
  rw [hx]
  constructor
  · intro h
    have hbits : ∀ i, x.testBit i = false ∧ y.testBit i = false := by
      intro i
      have hb : (x ||| y).testBit i = false := by rw [h]; exact Nat.zero_testBit i
      simpa [Nat.testBit_or] using hb
    exact ⟨Nat.zero_of_testBit_eq_false (fun i => (hbits i).1),
           Nat.zero_of_testBit_eq_false (fun i => (hbits i).2)⟩
  · rintro ⟨rfl, rfl⟩
    rfl

theorem xor_eq_zero_iff (x y : Nat) : Nat.xor x y = 0 ↔ x = y := by
  have hx : Nat.xor x y = x ^^^ y := rfl
  rw [hx]
  exact Nat.xor_eq_zero

theorem zip_self_eq : ∀ (a : List Nat) (p : Nat × Nat), p ∈ a.zip a → p.1 = p.2
  | [], p, hp => by simp at hp
  | x :: xs, p, hp => by
      rcases List.mem_cons.mp hp with rfl | h
      · rfl
      · exact zip_self_eq xs p h

theorem eq_of_zip_eq : ∀ (a b : List Nat), a.length = b.length →
    (∀ p ∈ a.zip b, p.1 = p.2) → a = b
  | [], [], _, _ => rfl
  | [], _ :: _, h, _ => by simp at h
  | _ :: _, [], h, _ => by simp at h
  | x :: xs, y :: ys, h, hall => by
      have hx : x = y := hall (x, y) (by simp)
      have hrest : xs = ys :=
        eq_of_zip_eq xs ys (by simpa using h) (fun p hp => hall p (by simp [hp]))
      rw [hx, hrest]

theorem tscmp_fst_eq_zero : ∀ (a b : List Nat) (acc : Nat),
    (tscmp a b acc).1 = 0 ↔ acc = 0 ∧ ∀ p ∈ a.zip b, p.1 = p.2
  | [], [], acc => by simp [tscmp]
  | [], _ :: _, acc => by simp [tscmp]
  | _ :: _, [], acc => by simp [tscmp]
  | x :: xs, y :: ys, acc => by
      have ih := tscmp_fst_eq_zero xs ys (Nat.lor acc (Nat.xor x y))
      simp only [tscmp]
      rw [ih, lor_eq_zero_iff, xor_eq_zero_iff]
      constructor
      · rintro ⟨⟨ha, hxy⟩, hrest⟩
        refine ⟨ha, ?_⟩
        intro p hp
        rcases List.mem_cons.mp hp with rfl | h
        · exact hxy
        · exact hrest p h
      · rintro ⟨ha, hall⟩
        exact ⟨⟨ha, hall (x, y) (by simp)⟩, fun p hp => hall p (by simp [hp])⟩

theorem tscmp_snd : ∀ (a b : List Nat) (acc : Nat),
    (tscmp a b acc).2 = min a.length b.length
  | [], [], acc => by simp [tscmp]
  | [], _ :: _, acc => by simp [tscmp]
  | _ :: _, [], acc => by simp [tscmp]
  | x :: xs, y :: ys, acc => by
      simp only [tscmp, List.length_cons]
      rw [tscmp_snd xs ys]
      omega

/-- The scan length of `compare_digest` is always the length of its second
argument, exactly as in CPython's `_tscmp`: it depends only on input lengths,
never on where (or whether) the inputs differ. -/
theorem compare_digest_steps_eq (a b : List Nat) : compare_digest_steps a b = b.length := by
  unfold compare_digest_steps
  by_cases h : a.length = b.length
  · rw [if_pos h, tscmp_snd, h, Nat.min_self]
  · rw [if_neg h, tscmp_snd, Nat.min_self]

theorem compare_digest_eq_true_iff (a b : List Nat) : compare_digest a b = true ↔ a = b := by
  unfold compare_digest
  by_cases h : a.length = b.length
  · rw [if_pos h]
    simp only [beq_iff_eq]
    rw [tscmp_fst_eq_zero]
    constructor
    · rintro ⟨-, hall⟩
      exact eq_of_zip_eq a b h hall
    · rintro rfl
      exact ⟨rfl, zip_self_eq a⟩
  · rw [if_neg h]
    have hne : a ≠ b := fun he => h (by rw [he])
    simp [tscmp_fst_eq_zero, hne]

/-! ### Store helper lemmas -/

/-- Replacing the record with key `cid` in a store and looking `cid` up
again finds the replacement, provided the replacement keeps the key. -/
theorem find_map_update (store : Store) (cid : String) (c c2 : Company)
    (hfind : find_by_id store cid = some c) (hid : c2.id = c.id) :
    find_by_id (store.map (fun x => if x.id == cid then c2 else x)) cid = some c2 := by
  induction store with
  | nil => simp [find_by_id] at hfind
  | cons hd tl ih =>
      by_cases h : hd.id = cid
      · have hb : (hd.id == cid) = true := beq_iff_eq.mpr h
        have hc : c = hd := by
          have := hfind
          simp [find_by_id, List.find?, hb] at this
          exact this.symm
        have hc2 : (c2.id == cid) = true := beq_iff_eq.mpr (by rw [hid, hc, h])
        simp [find_by_id, List.find?, hb, hc2]
      · have hb : (hd.id == cid) = false := beq_eq_false_iff_ne.mpr h
        have hfind' : find_by_id tl cid = some c := by
          have := hfind
          simpa [find_by_id, List.find?, hb] using this
        have := ih hfind'
        simpa [find_by_id, List.find?, hb] using this

/-! ### Claim C1: the replay guard -/

/-- C1 (counterexample): the claim says every future timestamp (negative age)
is rejected, but `validate_timestamp` only checks `age <= tolerance` with no
lower bound: at `now = 1000`, `tolerance = 30`, the future timestamp string
"1005" (age −5) is accepted. -/
theorem C1_counterexample :
    validate_timestamp 30 1000 "1005" = true ∧ (1000 : Int) - 1005 < 0 := by
  constructor
  · decide
  · decide

/-- C1 (amended): `validate_timestamp` returns true iff the timestamp string
parses as an integer Unix epoch and `now - timestamp <= tolerance`; it
returns false on any parse error (fails closed) and false for timestamps
older than the tolerance, but timestamps in the future (negative age) are
accepted — the code imposes no `0 <= now - timestamp` lower bound. -/
theorem C1_validate_timestamp_iff (tolerance now : Int) (ts : String) :
    validate_timestamp tolerance now ts = true ↔
      ∃ t, pyInt ts = some t ∧ now - t ≤ tolerance := by
  unfold validate_timestamp
  cases h : pyInt ts <;> simp

/-! ### Claim C3: signature determinism and round trip -/

/-- C3: `generate_hmac` is a pure function of the sorted parameter set — any
reordering (permutation) of the parameter items yields the same signature —
and the round trip `verify_hmac params (generate_hmac params)` returns true
for every parameter mapping and every keyed digest function. -/
theorem C3_sign_deterministic_roundtrip :
    (∀ (hmacHex : String → String) (p q : List (String × String)), p.Perm q →
        generate_hmac hmacHex p = generate_hmac hmacHex q) ∧
    (∀ (hmacHex : String → String) (p : List (String × String)),
        verify_hmac hmacHex p (generate_hmac hmacHex p) = true) := by
  constructor
  · intro hh p q hperm
    unfold generate_hmac queryString
    rw [sortParams_congr hperm]
  · intro hh p
    unfold verify_hmac
    rw [compare_digest_eq_true_iff]

/-- C3 (witness): instantiation at a concrete parameter mapping given in two
orders, with the identity as digest function. -/
theorem C3_witness :
    generate_hmac (fun s => s)
        [("timestamp", "10"), ("code", "c1"), ("company_id", "co"), ("redirect_to", "r")] =
      generate_hmac (fun s => s)
        [("code", "c1"), ("company_id", "co"), ("redirect_to", "r"), ("timestamp", "10")] ∧
    verify_hmac (fun s => s)
        [("code", "c1"), ("company_id", "co"), ("redirect_to", "r"), ("timestamp", "10")]
        (generate_hmac (fun s => s)
          [("code", "c1"), ("company_id", "co"), ("redirect_to", "r"), ("timestamp", "10")]) =
      true :=
  ⟨C3_sign_deterministic_roundtrip.1 _ _ _ (by decide),
   C3_sign_deterministic_roundtrip.2 _ _⟩

/-! ### Claim C5: constant-time comparison -/

/-- C5: `verify_hmac` compares the expected and received digests with
`compare_digest`, whose scan length equals the received input's length —
independent of the byte contents, hence of the position of the first
mismatched byte (no short-circuit) — and which decides exactly equality. -/
theorem C5_compare_digest_constant_time :
    (∀ (hmacHex : String → String) (p : List (String × String)) (received : String),
        verify_hmac hmacHex p received =
          compare_digest (strBytes (generate_hmac hmacHex p)) (strBytes received)) ∧
    (∀ a b : List Nat, compare_digest_steps a b = b.length) ∧
    (∀ a b : List Nat, compare_digest a b = true ↔ a = b) :=
  ⟨fun _ _ _ => rfl, compare_digest_steps_eq, compare_digest_eq_true_iff⟩

/-! ### Claim C2: session/refresh kind isolation -/

/-- C2: a validly signed (and unexpired) token whose `type` claim is
`'refresh'` is never accepted by `get_current_company_id`, and one whose
`type` claim is `'session'` is never accepted by `verify_refresh_token` —
whatever cookie slot the token arrives in, the explicit kind check performed
after signature verification rejects it. -/
theorem C2_kind_isolation :
    (∀ (decode : String → Option JwtPayload) (cookies : String → Option String)
        (tok : String) (p : JwtPayload),
        cookies SESSION_COOKIE_NAME = some tok → decode tok = some p →
        p.type = some "refresh" →
        get_current_company_id decode cookies = none) ∧
    (∀ (decode : String → Option JwtPayload) (cookies : String → Option String)
        (tok : String) (p : JwtPayload),
        cookies REFRESH_COOKIE_NAME = some tok → decode tok = some p →
        p.type = some "session" →
        verify_refresh_token decode cookies = none) := by
  constructor
  · intro decode cookies tok p hcookie hdec htype
    unfold get_current_company_id
    rw [hcookie]
    by_cases hz : tok = ""
    · simp [hz]
    · simp [hz, verify_jwt, hdec, htype]
  · intro decode cookies tok p hcookie hdec htype
    unfold verify_refresh_token
    rw [hcookie]
    by_cases hz : tok = ""
    · simp [hz]
    · simp [hz, verify_jwt, hdec, htype]

/-- C2 (witness): a validly signed refresh token in the session slot and a
validly signed session token in the refresh slot are both rejected. -/
theorem C2_witness :
    get_current_company_id
        (fun t => if t = "jwt-r" then some { companyId := some "c1", type := some "refresh" }
                  else if t = "jwt-s" then some { companyId := some "c1", type := some "session" }
                  else none)
        (fun n => if n = SESSION_COOKIE_NAME then some "jwt-r" else none) = none ∧
    verify_refresh_token
        (fun t => if t = "jwt-r" then some { companyId := some "c1", type := some "refresh" }
                  else if t = "jwt-s" then some { companyId := some "c1", type := some "session" }
                  else none)
        (fun n => if n = REFRESH_COOKIE_NAME then some "jwt-s" else none) = none :=
  ⟨C2_kind_isolation.1 _ _ "jwt-r" { companyId := some "c1", type := some "refresh" }
      (by simp) (by simp) rfl,
   C2_kind_isolation.2 _ _ "jwt-s" { companyId := some "c1", type := some "session" }
      (by simp) (by simp) rfl⟩

/-! ### Claim C8: graceful degradation of the company-info fetch -/

/-- C8 (counterexample): the claim says the synthesized record's name is the
tenant id, but for tenant id "t1" a failed provider response yields the name
"Company t1", which is not "t1". -/
theorem C8_counterexample :
    (get_company_info { ok := false, body := {} } "t1").name = some "Company t1" ∧
    some "Company t1" ≠ (some "t1" : Option String) := by
  constructor
  · rfl
  · decide

/-- C8 (amended): `get_company_info` never raises toward its caller: on
every non-success provider response it returns the minimal synthesized
record whose name is `"Company "` followed by the tenant id, and on a
success response it returns the provider's body. -/
theorem C8_get_company_info_total (resp : ProviderResp CompanyInfo) (company_id : String) :
    (resp.ok = false →
      get_company_info resp company_id = { name := some ("Company " ++ company_id) }) ∧
    (resp.ok = true → get_company_info resp company_id = resp.body) := by
  constructor
  · intro h
    simp [get_company_info, h]
  · intro h
    simp [get_company_info, h]

/-- C8 (witness): both branches at concrete responses. -/
theorem C8_witness :
    get_company_info { ok := false, body := {} } "t9" =
      { name := some "Company t9" } ∧
    get_company_info { ok := true, body := { name := some "Acme" } } "t9" =
      { name := some "Acme" } :=
  ⟨(C8_get_company_info_total { ok := false, body := {} } "t9").1 rfl,
   (C8_get_company_info_total { ok := true, body := { name := some "Acme" } } "t9").2 rfl⟩

/-! ### Claim C4: rejection happens before any provider call -/

/-- `handle_callback` raises a `ValueError` and performs no network call
whenever the signature fails to verify or the timestamp is stale. -/
theorem handle_callback_rejects (env : CallbackEnv) (store : Store)
    (code company_id timestamp hmac_signature redirect_to : String)
    (hrej : verify_hmac env.hmacHex
        [("code", code), ("company_id", company_id),
         ("redirect_to", redirect_to), ("timestamp", timestamp)] hmac_signature = false ∨
      validate_timestamp env.tolerance env.now timestamp = false) :
    ∃ msg, handle_callback env store code company_id timestamp hmac_signature redirect_to =
      (.error (.valueError msg), []) := by
  by_cases hv : verify_hmac env.hmacHex
      [("code", code), ("company_id", company_id),
       ("redirect_to", redirect_to), ("timestamp", timestamp)] hmac_signature = false
  · exact ⟨"Invalid HMAC signature", by simp [handle_callback, hv]⟩
  · have ht : validate_timestamp env.tolerance env.now timestamp = false :=
      hrej.resolve_left hv
    exact ⟨"Request expired", by simp [handle_callback, hv, ht]⟩

/-- C4: when the callback's HMAC does not verify or its timestamp is stale,
`CallbackView.get` answers HTTP 400 with no provider call recorded, the
tenant store unchanged and no cookies set. -/
theorem C4_reject_before_exchange (env : CallbackEnv) (defaultRedirect : String)
    (store : Store) (code company_id timestamp hmac_signature : String)
    (redirect_opt : Option String)
    (hrej : verify_hmac env.hmacHex
        [("code", code), ("company_id", company_id),
         ("redirect_to", redirect_opt.getD defaultRedirect), ("timestamp", timestamp)]
        hmac_signature = false ∨
      validate_timestamp env.tolerance env.now timestamp = false) :
    ∃ msg, callback_view_get env defaultRedirect store (some code) (some company_id)
        (some timestamp) (some hmac_signature) redirect_opt =
      { resp := .jsonError 400 msg, store := store, calls := [], cookies := [] } := by
  by_cases hp : validate_callback_params (some code) (some company_id) (some timestamp)
      (some hmac_signature) = false
  · exact ⟨"Missing required parameters", by simp [callback_view_get, hp]⟩
  · obtain ⟨msg, hmsg⟩ := handle_callback_rejects env store code company_id timestamp
      hmac_signature (redirect_opt.getD defaultRedirect) hrej
    refine ⟨msg, ?_⟩
    simp [callback_view_get, hp, hmsg]

/-- C4 (witness): a signature that cannot match (digest "aa" vs received
"bb") is rejected with no provider call and no state change. -/
theorem C4_witness :
    ∃ msg, callback_view_get
        { hmacHex := fun _ => "aa", now := 1000, tolerance := 300,
          exchangeResp := { ok := true, body := {} },
          infoResp := { ok := true, body := {} } }
        "/" [] (some "c") (some "co") (some "1000") (some "bb") none =
      { resp := .jsonError 400 msg, store := [], calls := [], cookies := [] } :=
  C4_reject_before_exchange _ "/" [] "c" "co" "1000" "bb" none (Or.inl (by decide))

/-! ### Claim C6: distinct NO_REFRESH_TOKEN failure, no mutation, no upstream call -/

/-- C6: when the refresh cookie verifies and the tenant exists but its
stored refresh token is null or empty, the refresh endpoint answers 401 with
code `NO_REFRESH_TOKEN`, mutating nothing and calling nothing upstream; a
failing cookie instead yields the distinct code `REFRESH_TOKEN_INVALID`. -/
theorem C6_no_refresh_token (env : RefreshEnv) (cookies : String → Option String)
    (store : Store) (cid : String) (company : Company)
    (hver : verify_refresh_token env.decode cookies = some cid)
    (hfind : find_by_id store cid = some company)
    (hrt : company.refresh_token = none ∨ company.refresh_token = some "") :
    refresh_view_post env cookies store =
      { status := 401, success := false, code := some "NO_REFRESH_TOKEN",
        store := store, calls := [], cookies := [] } ∧
    (∀ (env2 : RefreshEnv) (cookies2 : String → Option String) (store2 : Store),
        verify_refresh_token env2.decode cookies2 = none →
        refresh_view_post env2 cookies2 store2 =
          { status := 401, success := false, code := some "REFRESH_TOKEN_INVALID",
            store := store2, calls := [], cookies := [] }) := by
  constructor
  · have htr : truthyOpt company.refresh_token = false := by
      rcases hrt with h | h <;> simp [truthyOpt, h]
    simp [refresh_view_post, hver, hfind, htr]
  · intro env2 cookies2 store2 hnone
    simp [refresh_view_post, hnone]

/-- C6 (witness): a tenant whose stored refresh token is null. -/
theorem C6_witness :
    refresh_view_post
        { decode := fun t => if t = "r" then
              some { companyId := some "c1", type := some "refresh" } else none,
          refreshResp := { ok := true, body := {} }, now := 0 }
        (fun n => if n = REFRESH_COOKIE_NAME then some "r" else none)
        [{ id := "c1" }] =
      { status := 401, success := false, code := some "NO_REFRESH_TOKEN",
        store := [{ id := "c1" }], calls := [], cookies := [] } :=
  (C6_no_refresh_token _ _ _ "c1" { id := "c1" } (by decide) (by decide)
    (Or.inl rfl)).1

/-! ### Claim C7: webhook dispatch -/

/-- C7: a parseable webhook whose event type is not in the static handler
mapping mutates nothing and still gets the success response; a recognized
`company.updated` event whose data carries a `name` renames the existing
tenant to that value. -/
theorem C7_webhook_dispatch :
    (∀ (store : Store) (et : String) (data : List (String × String)) (cid : Option String),
        et ∉ WEBHOOK_EVENT_TYPES →
        webhook_post store { type := some et, data := data, company_id := cid } =
          { status := 200, success := true, store := store }) ∧
    (∀ (store : Store) (data : List (String × String)) (cid : String) (c : Company)
        (v : String),
        find_by_id store cid = some c → dataLookup data "name" = some v →
        (find_by_id (webhook_post store
            { type := some "company.updated", data := data,
              company_id := some cid }).store cid).map (fun x => x.name) = some v) := by
  constructor
  · intro store et data cid hnotin
    have h1 : et ≠ "company.updated" := fun he => hnotin (he ▸ (by decide))
    have h2 : et ≠ "company.deleted" := fun he => hnotin (he ▸ (by decide))
    simp [webhook_post, process_event, h1, h2]
  · intro store data cid c v hfind hname
    have hupd : update_by_id store cid
        { name := some v, description := dataLookup data "description" } =
        store.map (fun x => if x.id == cid then
          ({ c with
            name := v,
            description := match dataLookup data "description" with
              | some d => some d
              | none => c.description } : Company) else x) := by
      simp [update_by_id, hfind]
    simp only [webhook_post, process_event, if_pos rfl, handle_company_updated, hname,
      Option.isSome_some, Bool.true_or, if_true]
    rw [hupd]
    rw [find_map_update store cid c
      ({ c with
        name := v,
        description := match dataLookup data "description" with
          | some d => some d
          | none => c.description } : Company) hfind rfl]
    simp

/-- C7 (witness): an unknown event type leaves a one-tenant store unchanged
with a success response, and `company.updated` renames tenant "t1" to
"Acme". -/
theorem C7_witness :
    webhook_post [{ id := "t1", name := "Old" }]
        { type := some "foo.bar", data := [("name", "Acme")], company_id := some "t1" } =
      { status := 200, success := true, store := [{ id := "t1", name := "Old" }] } ∧
    (find_by_id (webhook_post [{ id := "t1", name := "Old" }]
        { type := some "company.updated", data := [("name", "Acme")],
          company_id := some "t1" }).store "t1").map (fun x => x.name) = some "Acme" :=
  ⟨C7_webhook_dispatch.1 [{ id := "t1", name := "Old" }] "foo.bar" [("name", "Acme")]
      (some "t1") (by decide),
   C7_webhook_dispatch.2 [{ id := "t1", name := "Old" }] [("name", "Acme")] "t1"
      { id := "t1", name := "Old" } "Acme" (by decide) (by decide)⟩

/-! ### Claim C9: refresh keeps the stored refresh token when the response has none -/

/-- C9: on a successful refresh whose provider response carries no
`refresh_token` (absent or null), the tenant's stored refresh token is
preserved while `access_token` and `token_expires_at` are updated. -/
theorem C9_refresh_preserves_refresh_token (env : RefreshEnv)
    (cookies : String → Option String) (store : Store) (cid : String)
    (company : Company) (rt : String)
    (hver : verify_refresh_token env.decode cookies = some cid)
    (hfind : find_by_id store cid = some company)
    (hrt : company.refresh_token = some rt) (hrtne : rt ≠ "")
    (hok : env.refreshResp.ok = true)
    (hnone : env.refreshResp.body.refresh_token = none) :
    (refresh_view_post env cookies store).status = 200 ∧
    find_by_id (refresh_view_post env cookies store).store cid =
      some { company with
        access_token := env.refreshResp.body.access_token,
        refresh_token := some rt,
        token_expires_at :=
          some (expiryAt env.now (env.refreshResp.body.expires_in_minutes.getD 60)) } := by
  have htr : truthyOpt (some rt) = true := by simp [truthyOpt, hrtne]
  have hrefresh : refresh_access_token env.refreshResp =
      .ok { access_token := env.refreshResp.body.access_token,
            refresh_token := env.refreshResp.body.refresh_token,
            expires_in_minutes := env.refreshResp.body.expires_in_minutes.getD 60 } := by
    simp [refresh_access_token, hok]
  have hres : refresh_view_post env cookies store =
      { status := 200, success := true, code := none,
        store := store.map (fun c => if c.id == cid then
          { company with
            access_token := env.refreshResp.body.access_token,
            refresh_token := some rt,
            token_expires_at :=
              some (expiryAt env.now (env.refreshResp.body.expires_in_minutes.getD 60)) }
          else c),
        calls := [NetCall.refresh rt],
        cookies := [SESSION_COOKIE_NAME, REFRESH_COOKIE_NAME] } := by
    simp [refresh_view_post, hver, hfind, hrt, htr, hrefresh, hnone]
  rw [hres]
  exact ⟨rfl, find_map_update store cid company _ hfind rfl⟩

/-- C9 (witness): tenant "c1" with stored refresh token "oldrt"; the
provider answers with a new access token and no refresh token. -/
theorem C9_witness :
    (refresh_view_post
        { decode := fun t => if t = "r" then
              some { companyId := some "c1", type := some "refresh" } else none,
          refreshResp := { ok := true, body := { access_token := some "newa" } },
          now := 0 }
        (fun n => if n = REFRESH_COOKIE_NAME then some "r" else none)
        [{ id := "c1", refresh_token := some "oldrt", access_token := some "olda" }]).status
      = 200 ∧
    find_by_id (refresh_view_post
        { decode := fun t => if t = "r" then
              some { companyId := some "c1", type := some "refresh" } else none,
          refreshResp := { ok := true, body := { access_token := some "newa" } },
          now := 0 }
        (fun n => if n = REFRESH_COOKIE_NAME then some "r" else none)
        [{ id := "c1", refresh_token := some "oldrt", access_token := some "olda" }]).store
        "c1" =
      some { id := "c1", refresh_token := some "oldrt", access_token := some "newa",
             token_expires_at := some (expiryAt 0 60) } :=
  C9_refresh_preserves_refresh_token _ _ _ "c1"
    { id := "c1", refresh_token := some "oldrt", access_token := some "olda" } "oldrt"
    (by decide) (by decide) rfl (by decide) rfl rfl

/-! ### Claim C10: empty-string callback parameters are missing parameters -/

/-- C10: `validate_callback_params` is true iff each of the four values is
present and non-empty, and a callback in which any of them is the empty
string is answered exactly like an absent parameter: HTTP 400
missing-params, state untouched. -/
theorem C10_empty_params_rejected :
    (∀ code company_id timestamp hmac_signature : Option String,
        validate_callback_params code company_id timestamp hmac_signature = true ↔
          ((∃ s, code = some s ∧ s ≠ "") ∧ (∃ s, company_id = some s ∧ s ≠ "") ∧
           (∃ s, timestamp = some s ∧ s ≠ "") ∧ (∃ s, hmac_signature = some s ∧ s ≠ ""))) ∧
    (∀ (env : CallbackEnv) (defaultRedirect : String) (store : Store)
        (code company_id timestamp hmac_signature redirect_opt : Option String),
        (code = some "" ∨ company_id = some "" ∨ timestamp = some "" ∨
          hmac_signature = some "") →
        callback_view_get env defaultRedirect store code company_id timestamp
            hmac_signature redirect_opt =
          { resp := .jsonError 400 "Missing required parameters",
            store := store, calls := [], cookies := [] }) := by
  constructor
  · intro code company_id timestamp hmac_signature
    cases code <;> cases company_id <;> cases timestamp <;> cases hmac_signature <;>
      simp [validate_callback_params, truthyOpt, and_assoc]
  · intro env dr store code company_id timestamp hmac_signature redirect_opt hempty
    have hval : validate_callback_params code company_id timestamp hmac_signature = false := by
      rcases hempty with h | h | h | h <;>
        simp [validate_callback_params, truthyOpt, h]
    simp [callback_view_get, hval]

/-- C10 (witness): an empty `code` among otherwise well-formed parameters is
rejected as missing. -/
theorem C10_witness :
    callback_view_get
        { hmacHex := fun _ => "aa", now := 1000, tolerance := 300,
          exchangeResp := { ok := true, body := {} },
          infoResp := { ok := true, body := {} } }
        "/" [] (some "") (some "co") (some "1000") (some "aa") none =
      { resp := .jsonError 400 "Missing required parameters",
        store := [], calls := [], cookies := [] } :=
  C10_empty_params_rejected.2 _ "/" [] (some "") (some "co") (some "1000") (some "aa")
    none (Or.inl rfl)

end Genuka
